import Mathlib

/-!
Verification of `mass_formula.py` (joolian/mass_formula).

The file shallow-embeds the parts of the program the claims touch:

* a small JSON value model (`Scalar`, `FieldVal`) for the payloads the
  ChemCalc endpoint returns and the error payloads `get_formulas` builds;
* Python `dict` operations on association lists (`dlookup`, `setKey`,
  `delKey`, `dictMerge`) — Python dicts have unique keys and preserve
  insertion order, which the association-list operations reproduce;
* the pandas operations the program uses (`DataFrame` as a column list
  plus a list of rows, each row the cells actually set; `pd.concat`,
  `pd.DataFrame([dict])`, `pd.DataFrame(dict_of_scalars)` — which raises
  `ValueError` when every value is a scalar —, `pd.DataFrame.from_dict`
  on a list of records, and column assignment broadcasting a scalar);
* the `requests.Session` adapter registry: `mount` and `get_adapter`,
  with the retry-configured `HTTPAdapter` built in `__init__`;
* `results_meta_data`, `json_to_dataframe` (mutation of its argument is
  modelled by returning the post-call response next to the frame),
  `get_formulas` (the network call abstracted as an `HttpOutcome`),
  the batch loop of `formulas`, and the `ppm_error` / `ppm_to_mass`
  utilities (floats idealised as `ℚ`).

Numbers are modelled as `ℚ`; nested JSON is restricted to the shapes the
code manipulates: top-level fields are scalars, flat objects, or lists of
flat records, matching the endpoint's `options` / `results` / `error`
shape. Exceptions are modelled with `Except` (`PyErr`).
-/

namespace MassFormula

/-- A Python scalar value as stored in the JSON payloads: `None`, a bool,
a number (floats idealised as rationals), or a string. -/
inductive Scalar where
  | null
  | bool (b : Bool)
  | num (q : ℚ)
  | str (s : String)
deriving DecidableEq, Repr

/-- A top-level field of a decoded JSON payload: a scalar, a flat object
(string-keyed scalars, e.g. `options` or `error`), or a list of flat
records (e.g. `results`). -/
inductive FieldVal where
  | scalar (s : Scalar)
  | obj (fields : List (String × Scalar))
  | list (records : List (List (String × Scalar)))
deriving DecidableEq, Repr

/-- A decoded JSON body / `RawResponse`: a Python dict from field names to
field values, as an insertion-ordered association list with unique keys. -/
abbrev JsonTop := List (String × FieldVal)

/-- The Python exceptions the modelled code can raise. -/
inductive PyErr where
  | keyError (k : String)
  | typeError (msg : String)
  | valueError (msg : String)
deriving DecidableEq, Repr

/-- Decidable equality for `Except`, used to evaluate the model on
concrete inputs. -/
instance {ε α : Type} [DecidableEq ε] [DecidableEq α] :
    DecidableEq (Except ε α) := fun a b =>
  match a, b with
  | .error e, .error e2 =>
    if h : e = e2 then .isTrue (by rw [h]) else
      .isFalse (by simp only [Except.error.injEq]; exact h)
  | .error _, .ok _ => .isFalse (fun h => Except.noConfusion h)
  | .ok _, .error _ => .isFalse (fun h => Except.noConfusion h)
  | .ok v, .ok v2 =>
    if h : v = v2 then .isTrue (by rw [h]) else
      .isFalse (by simp only [Except.ok.injEq]; exact h)

/-- Python `d[k]` read on a dict: the value at key `k`, if present. -/
def dlookup {α : Type} (d : List (String × α)) (k : String) : Option α :=
  (d.find? (fun kv => kv.1 == k)).map (fun kv => kv.2)

/-- Python `k in d` on a dict. -/
def dcontains {α : Type} (d : List (String × α)) (k : String) : Bool :=
  d.any (fun kv => kv.1 == k)

/-- Python `d[k] = v` on a dict: update in place when the key exists,
append otherwise (insertion order is preserved). -/
def setKey {α : Type} (d : List (String × α)) (k : String) (v : α) :
    List (String × α) :=
  if dcontains d k then
    d.map (fun kv => if kv.1 == k then (k, v) else kv)
  else
    d ++ [(k, v)]

/-- Python `del d[k]` after the `k in d` check succeeded: drop the key. -/
def delKey {α : Type} (d : List (String × α)) (k : String) :
    List (String × α) :=
  d.filter (fun kv => kv.1 ≠ k)

/-- Python `{**a, **b}`: entries of `a` updated/extended by those of `b`. -/
def dictMerge {α : Type} (a b : List (String × α)) : List (String × α) :=
  b.foldl (fun acc kv => setKey acc kv.1 kv.2) a

/-- Python truthiness of a scalar (`if not x` tests). -/
def pyTruthyScalar : Scalar → Bool
  | .null => false
  | .bool b => b
  | .num q => q ≠ 0
  | .str s => !s.isEmpty

/-- Python truthiness of a field value. -/
def pyTruthy : FieldVal → Bool
  | .scalar s => pyTruthyScalar s
  | .obj l => !l.isEmpty
  | .list l => !l.isEmpty

/-! ### pandas model -/

/-- A pandas `DataFrame`: the ordered list of column names, and the rows.
Each row records only the cells that were actually set; a column with no
cell in a row is `NaN` there. -/
structure DataFrame where
  columns : List String
  rows : List (List (String × Scalar))
deriving DecidableEq, Repr

/-- Extend a column list with new names, keeping first-appearance order. -/
def addCols (cols : List String) (ks : List String) : List String :=
  ks.foldl (fun acc k => if k ∈ acc then acc else acc ++ [k]) cols

/-- `pd.DataFrame(columns=cols)`: an empty frame with the given columns. -/
def pdEmpty (cols : List String) : DataFrame := ⟨cols, []⟩

/-- `pd.DataFrame(records)` / `pd.DataFrame.from_dict(records)` on a list
of dicts: one row per record, columns in first-appearance order. -/
def pdFromRecords (recs : List (List (String × Scalar))) : DataFrame :=
  ⟨recs.foldl (fun acc r => addCols acc (r.map (fun kv => kv.1))) [], recs⟩

/-- `pd.DataFrame(d)` on a dict whose values are all scalars: pandas
raises `ValueError` unless the dict is empty. -/
def pdFromScalarDict (d : List (String × Scalar)) : Except PyErr DataFrame :=
  if d.isEmpty then .ok (pdFromRecords [])
  else .error (.valueError "If using all scalar values, you must pass an index")

/-- `pd.concat` of two frames: rows appended, columns united. -/
def pdConcat2 (a b : DataFrame) : DataFrame :=
  ⟨addCols a.columns b.columns, a.rows ++ b.rows⟩

/-- `pd.concat(objs)`: raises `ValueError` on an empty list of frames. -/
def pdConcat (dfs : List DataFrame) : Except PyErr DataFrame :=
  match dfs with
  | [] => .error (.valueError "No objects to concatenate")
  | d :: rest => .ok (rest.foldl pdConcat2 d)

/-- Set one cell of a row (used when a column assignment broadcasts a
scalar onto each row). -/
def setCell (r : List (String × Scalar)) (k : String) (v : Scalar) :
    List (String × Scalar) :=
  delKey r k ++ [(k, v)]

/-- `df[k] = v` with scalar `v`: the value is broadcast onto every row. -/
def setColumn (df : DataFrame) (k : String) (v : Scalar) : DataFrame :=
  ⟨addCols df.columns [k], df.rows.map (fun r => setCell r k v)⟩

/-- `df[list(d.keys())] = list(d.values())`: each listed column is set to
its scalar value, broadcast down all rows. -/
def setColumns (df : DataFrame) (kvs : List (String × Scalar)) : DataFrame :=
  kvs.foldl (fun acc kv => setColumn acc kv.1 kv.2) df

/-! ### requests session / adapter model (`__init__`) -/

/-- The `urllib3.util.Retry` configuration fields the program sets.
`allowedMethodsNone` records `allowed_methods=None` (retry any method). -/
structure Retry where
  total : ℕ
  backoff_factor : ℕ
  status_forcelist : List ℕ
  allowedMethodsNone : Bool
deriving DecidableEq, Repr

/-- An HTTP adapter is characterised here by its retry configuration. -/
structure HTTPAdapter where
  max_retries : Retry
deriving DecidableEq, Repr

/-- The adapter a fresh `requests.Session` installs: no retries
(`HTTPAdapter()` with `max_retries = 0`). -/
def defaultAdapter : HTTPAdapter := ⟨⟨0, 0, [], false⟩⟩

/-- The adapter built in `ChemCalcFormulaFinder.__init__`:
`Retry(total=4, backoff_factor=1, allowed_methods=None,
status_forcelist=[429, 500, 502, 503, 504])`. -/
def retryAdapter : HTTPAdapter := ⟨⟨4, 1, [429, 500, 502, 503, 504], true⟩⟩

/-- A session's adapter registry: URL-scheme prefixes mapped to adapters,
kept ordered with longer prefixes first (as `requests.Session` does). -/
abbrev Adapters := List (String × HTTPAdapter)

/-- A fresh `requests.Session` mounts a default adapter for `https://`
and one for `http://`, in that order. -/
def sessionInit : Adapters :=
  [("https://", defaultAdapter), ("http://", defaultAdapter)]

/-- `Session.mount(pfx, adapter)`: store the adapter under the prefix,
then move every strictly shorter prefix behind it so that lookup tries
longer prefixes first. -/
def mountAdapter (s : Adapters) (pfx : String) (ad : HTTPAdapter) : Adapters :=
  let s2 := setKey s pfx ad
  s2.filter (fun kv => !(kv.1.length < pfx.length)) ++
    s2.filter (fun kv => kv.1.length < pfx.length)

/-- Lowercased character content of a string (`str.lower()`). -/
def lowerChars (s : String) : List Char := s.data.map Char.toLower

/-- `Session.get_adapter(url)`: the first registered adapter whose prefix
the lowercased URL starts with; `none` models `InvalidSchema`. -/
def get_adapter (s : Adapters) (url : String) : Option HTTPAdapter :=
  (s.find? (fun kv => (lowerChars kv.1).isPrefixOf (lowerChars url))).map
    (fun kv => kv.2)

/-- The fixed endpoint, `ChemCalcFormulaFinder.url`. -/
def chemcalcURL : String := "https://www.chemcalc.org/chemcalc/em"

/-- The session state after `__init__`: the retry adapter is mounted at
the `"http://"` prefix. -/
def chemcalcSession : Adapters := mountAdapter sessionInit "http://" retryAdapter

/-! ### mass_formula functions -/

/-- `ChemCalcFormulaFinder.df_columns`: the fixed column superset every
emitted frame starts from. -/
def df_columns : List String :=
  ["em", "mf", "unsat", "jcampURL", "error", "ppm", "info", "minMass",
   "mfRange", "numberOfResultsOnly", "typedResult", "minUnsaturation",
   "maxUnsaturation", "useUnsaturation", "jcampBaseURL", "monoisotopicMass",
   "jcampLink", "integerUnsaturation", "maxMass", "referenceVersion",
   "massRange", "charge", "number_results", "search_number", "accuracy",
   "error_description"]

/-- The dict comprehension `meta` inside `results_meta_data`: the
top-level items whose value is neither a dict nor a list. -/
def scalarItems (json : JsonTop) : List (String × Scalar) :=
  json.filterMap (fun kv =>
    match kv.2 with
    | .scalar s => some (kv.1, s)
    | _ => none)

/-- `results_meta_data(json)`: the scalar top-level items merged as
`{**json['options'], **meta, **json['error']}`. A missing key raises
`KeyError`; unpacking a non-dict raises `TypeError`. -/
def results_meta_data (json : JsonTop) : Except PyErr (List (String × Scalar)) :=
  let meta := scalarItems json
  match dlookup json "options" with
  | none => .error (.keyError "options")
  | some (.scalar _) => .error (.typeError "argument of type mapping required")
  | some (.list _) => .error (.typeError "argument of type mapping required")
  | some (.obj opts) =>
    match dlookup json "error" with
    | none => .error (.keyError "error")
    | some (.scalar _) => .error (.typeError "argument of type mapping required")
    | some (.list _) => .error (.typeError "argument of type mapping required")
    | some (.obj err) => .ok (dictMerge (dictMerge opts meta) err)

/-- `json_to_dataframe(formulas_json)`. Because the Python function
mutates its argument (`del formulas_json['error']['fatal']` on the error
path), the model returns the post-call response next to the frame. -/
def json_to_dataframe (fj : JsonTop) :
    Except PyErr (DataFrame × JsonTop) :=
  let df := pdEmpty df_columns
  match dlookup fj "error" with
  | none => .error (.keyError "error")
  | some (.scalar _) => .error (.typeError "value is not subscriptable")
  | some (.list _) => .error (.typeError "list indices must be integers")
  | some (.obj err) =>
    match dlookup err "error_description" with
    | none => .error (.keyError "error_description")
    | some desc =>
      if desc ≠ .null then
        if dcontains err "fatal" then
          let err2 := delKey err "fatal"
          .ok (pdConcat2 df (pdFromRecords [err2]),
               setKey fj "error" (.obj err2))
        else .error (.keyError "fatal")
      else
        match results_meta_data fj with
        | .error e => .error e
        | .ok meta =>
          match dlookup fj "results" with
          | none => .error (.keyError "results")
          | some rv =>
            if pyTruthy rv then
              match rv with
              | .list recs =>
                .ok (setColumns (pdConcat2 df (pdFromRecords recs)) meta, fj)
              | _ => .error (.typeError "from_dict expects a list of records")
            else
              match pdFromScalarDict meta with
              | .error e => .error e
              | .ok mdf => .ok (pdConcat2 df mdf, fj)

/-- The observable outcome of the single `session.get(...).json()` call
inside `get_formulas`: a decoded body, a connection failure
(`RetryError` / `ConnectionError`, the fatal class), or a decode failure
(`JSONDecodeError`, the non-fatal class). -/
inductive HttpOutcome where
  | success (body : JsonTop)
  | connectionFailure
  | decodeFailure
deriving DecidableEq, Repr

/-- `get_formulas(mass, accuracy, mf_range, charge)` with the network
call abstracted by an `HttpOutcome`. On success the decoded body gets
`results['error'] = {'error_description': None}`; on failure an error
payload echoing the query is built, `fatal` being `True` exactly for the
connection-failure class. -/
def get_formulas (outcome : HttpOutcome) (mass accuracy : ℚ)
    (mf_range charge : String) : JsonTop :=
  let mfr := mf_range ++ "(" ++ charge ++ ")"
  match outcome with
  | .success body => setKey body "error" (.obj [("error_description", .null)])
  | .connectionFailure =>
    [("error", .obj
      [("fatal", .bool true),
       ("error_description", .str "ConnectionError"),
       ("em", .num mass),
       ("accuracy", .num accuracy),
       ("mfRange", .str mfr),
       ("charge", .str charge)])]
  | .decodeFailure =>
    [("error", .obj
      [("fatal", .bool false),
       ("error_description", .str "JSONDecodeError"),
       ("em", .num mass),
       ("accuracy", .num accuracy),
       ("mfRange", .str mfr),
       ("charge", .str charge)])]

/-- The loop guard `formulas_json['error'].get('fatal_error', False)`:
truthiness of the `fatal_error` entry of the error sub-structure,
defaulting to `False` when the key is absent. -/
def fatalErrorFlag (fj : JsonTop) : Except PyErr Bool :=
  match dlookup fj "error" with
  | none => .error (.keyError "error")
  | some (.scalar _) => .error (.typeError "value has no attribute get")
  | some (.list _) => .error (.typeError "value has no attribute get")
  | some (.obj err) =>
    .ok (match dlookup err "fatal_error" with
         | some v => pyTruthyScalar v
         | none => false)

/-- The iteration of `formulas` over
`enumerate(zip(mass, accuracy, mf_range, charge, strict=True))`.
`transport` gives the outcome of the HTTP call made for the query at a
given enumeration index. The second component of the result counts the
HTTP requests actually issued; with `strict=True` the `ValueError` for
mismatched lengths is raised lazily, only once some input is exhausted,
so requests made before that point are counted. -/
def formulasLoop (transport : ℕ → HttpOutcome) :
    List ℚ → List ℚ → List String → List String → ℕ → List DataFrame →
    (Except PyErr (List DataFrame)) × ℕ
  | [], [], [], [], idx, acc => (.ok acc, idx)
  | m :: ms, a :: as', r :: rs, c :: cs, idx, acc =>
    match json_to_dataframe (get_formulas (transport idx) m a r c) with
    | .error e => (.error e, idx + 1)
    | .ok (df, fj2) =>
      match fatalErrorFlag fj2 with
      | .error e => (.error e, idx + 1)
      | .ok b =>
        if b then
          (.ok (acc ++ [setColumn df "search_number" (.num idx)]), idx + 1)
        else
          formulasLoop transport ms as' rs cs (idx + 1)
            (acc ++ [setColumn df "search_number" (.num idx)])
  | _, _, _, _, idx, _ =>
    (.error (.valueError "zip() arguments are of unequal length"), idx)

/-- `formulas(mass, accuracy, mf_range, charge)` on sequence inputs: run
the loop from index 0, then `pd.concat` the accumulated per-query frames.
The result pairs the returned table (or the propagated exception) with
the number of HTTP requests issued. -/
def formulas (transport : ℕ → HttpOutcome) (ms as' : List ℚ)
    (rs cs : List String) : (Except PyErr DataFrame) × ℕ :=
  match formulasLoop transport ms as' rs cs 0 [] with
  | (.error e, n) => (.error e, n)
  | (.ok frames, n) => (pdConcat frames, n)

/-- `formulas` on four scalars: `zip` raises `TypeError` on non-iterable
arguments, which the code catches by wrapping each argument in a
singleton list. -/
def formulasScalar (transport : ℕ → HttpOutcome) (m a : ℚ)
    (r c : String) : (Except PyErr DataFrame) × ℕ :=
  formulas transport [m] [a] [r] [c]

/-! ### ppm utilities -/

/-- python `ppm_error(mass, mass_error) = mass_error / mass * 1e6`,
arithmetic idealised over `ℚ`. -/
def ppm_error (mass mass_error : ℚ) : ℚ := mass_error / mass * 1000000

/-- python `ppm_to_mass(mass, ppm_err) = mass * ppm_err / 1e6`,
arithmetic idealised over `ℚ`. -/
def ppm_to_mass (mass ppmErr : ℚ) : ℚ := mass * ppmErr / 1000000

/-! ### Derived observations used to state the claims -/

/-- The error payload row a connection failure produces after
`json_to_dataframe` deleted the `fatal` flag. -/
def connErrRow (m a : ℚ) (r c : String) : List (String × Scalar) :=
  [("error_description", .str "ConnectionError"), ("em", .num m),
   ("accuracy", .num a), ("mfRange", .str (r ++ "(" ++ c ++ ")")),
   ("charge", .str c)]

/-- The error payload row a decode failure produces after
`json_to_dataframe` deleted the `fatal` flag. -/
def decodeErrRow (m a : ℚ) (r c : String) : List (String × Scalar) :=
  [("error_description", .str "JSONDecodeError"), ("em", .num m),
   ("accuracy", .num a), ("mfRange", .str (r ++ "(" ++ c ++ ")")),
   ("charge", .str c)]

/-- The `search_number` cell of every row of a table, in row order. -/
def snColumn (df : DataFrame) : List (Option Scalar) :=
  df.rows.map (fun r => dlookup r "search_number")

/-- The shape the `search_number` column takes when query `i` onwards
contribute blocks of `counts` consecutive rows each: the value `i` is
repeated for the whole block of the query at position `i`. -/
def snPattern : ℕ → List ℕ → List (Option Scalar)
  | _, [] => []
  | i, c :: cs => List.replicate c (some (.num i)) ++ snPattern (i + 1) cs

/-! ### Dictionary and DataFrame lemmas -/

theorem dlookup_nil {α : Type} (k : String) :
    dlookup ([] : List (String × α)) k = none := rfl

theorem dlookup_cons_ne {α : Type} (kv : String × α) (rest : List (String × α))
    (k : String) (h : kv.1 ≠ k) : dlookup (kv :: rest) k = dlookup rest k := by
  have hb : (kv.1 == k) = false := by simpa using h
  simp [dlookup, List.find?_cons, hb]

theorem dlookup_cons_self {α : Type} (k : String) (v : α)
    (rest : List (String × α)) : dlookup ((k, v) :: rest) k = some v := by
  simp [dlookup, List.find?_cons]

theorem dlookup_delKey_ne {α : Type} (r : List (String × α)) (k k2 : String)
    (h : k ≠ k2) : dlookup (delKey r k2) k = dlookup r k := by
  induction r with
  | nil => rfl
  | cons kv rest ih =>
    by_cases hk : kv.1 = k2
    · have hp : (decide ¬ kv.1 = k2) = false := by simp [hk]
      rw [delKey, List.filter_cons, hp]
      simp only [Bool.false_eq_true, if_false]
      rw [show rest.filter (fun kv => kv.1 ≠ k2) = delKey rest k2 from rfl, ih,
        dlookup_cons_ne kv rest k (by rw [hk]; exact fun hh => h hh.symm)]
    · have hp : (decide ¬ kv.1 = k2) = true := by simp [hk]
      rw [delKey, List.filter_cons, hp]
      simp only [if_true]
      by_cases hkk : kv.1 = k
      · rw [show kv = (k, kv.2) by rw [← hkk]]
        rw [dlookup_cons_self, dlookup_cons_self]
      · rw [dlookup_cons_ne kv _ k hkk, dlookup_cons_ne kv rest k hkk,
          show rest.filter (fun kv => kv.1 ≠ k2) = delKey rest k2 from rfl, ih]

theorem dlookup_delKey_self {α : Type} (r : List (String × α)) (k : String) :
    dlookup (delKey r k) k = none := by
  induction r with
  | nil => rfl
  | cons kv rest ih =>
    by_cases hk : kv.1 = k
    · have hp : (decide ¬ kv.1 = k) = false := by simp [hk]
      rw [delKey, List.filter_cons, hp]
      simpa [delKey] using ih
    · have hp : (decide ¬ kv.1 = k) = true := by simp [hk]
      rw [delKey, List.filter_cons, hp]
      simp only [if_true]
      rw [dlookup_cons_ne kv _ k hk]
      simpa [delKey] using ih

theorem dlookup_append_left_none {α : Type} (d e : List (String × α))
    (k : String) (h : dlookup d k = none) :
    dlookup (d ++ e) k = dlookup e k := by
  induction d with
  | nil => rfl
  | cons kv rest ih =>
    by_cases hk : kv.1 = k
    · rw [show kv = (k, kv.2) by rw [← hk], dlookup_cons_self] at h
      exact absurd h (by simp)
    · rw [dlookup_cons_ne kv rest k hk] at h
      rw [List.cons_append, dlookup_cons_ne kv (rest ++ e) k hk]
      exact ih h

theorem dlookup_append_left_some {α : Type} (d e : List (String × α))
    (k : String) (v : α) (h : dlookup d k = some v) :
    dlookup (d ++ e) k = some v := by
  induction d with
  | nil => exact absurd h (by simp [dlookup])
  | cons kv rest ih =>
    by_cases hk : kv.1 = k
    · rw [show kv = (k, kv.2) by rw [← hk], dlookup_cons_self] at h
      rw [show kv = (k, kv.2) by rw [← hk], List.cons_append,
        dlookup_cons_self]
      exact h
    · rw [dlookup_cons_ne kv rest k hk] at h
      rw [List.cons_append, dlookup_cons_ne kv (rest ++ e) k hk]
      exact ih h

theorem dlookup_none_of_not_contains {α : Type} (d : List (String × α))
    (k : String) (h : dcontains d k = false) : dlookup d k = none := by
  induction d with
  | nil => rfl
  | cons kv rest ih =>
    simp only [dcontains, List.any_cons, Bool.or_eq_false_iff] at h
    have hk : kv.1 ≠ k := by simpa using h.1
    rw [dlookup_cons_ne kv rest k hk]
    exact ih h.2

theorem dlookup_setCell_self (r : List (String × Scalar)) (k : String)
    (v : Scalar) : dlookup (setCell r k v) k = some v := by
  unfold setCell
  rw [dlookup_append_left_none _ _ k (dlookup_delKey_self r k),
    dlookup_cons_self]

theorem dlookup_setCell_ne (r : List (String × Scalar)) (k k2 : String)
    (v : Scalar) (h : k ≠ k2) :
    dlookup (setCell r k2 v) k = dlookup r k := by
  unfold setCell
  rcases hl : dlookup (delKey r k2) k with _ | v2
  · rw [dlookup_append_left_none _ _ k hl,
      dlookup_cons_ne (k2, v) [] k (fun hh => h hh.symm), dlookup_nil,
      ← dlookup_delKey_ne r k k2 h, hl]
  · rw [dlookup_append_left_some _ _ k v2 hl,
      ← dlookup_delKey_ne r k k2 h, hl]

theorem dlookup_foldl_setCell_of_not_mem (kvs : List (String × Scalar))
    (r : List (String × Scalar)) (k : String)
    (h : k ∉ kvs.map Prod.fst) :
    dlookup (kvs.foldl (fun acc kv => setCell acc kv.1 kv.2) r) k =
      dlookup r k := by
  induction kvs generalizing r with
  | nil => rfl
  | cons kv rest ih =>
    simp only [List.map_cons, List.mem_cons, not_or] at h
    rw [List.foldl_cons, ih (setCell r kv.1 kv.2) h.2,
      dlookup_setCell_ne r k kv.1 kv.2 h.1]

theorem dlookup_foldl_setCell_of_mem (kvs : List (String × Scalar))
    (r : List (String × Scalar)) (k : String) (v : Scalar)
    (hmem : (k, v) ∈ kvs) (hnd : (kvs.map Prod.fst).Nodup) :
    dlookup (kvs.foldl (fun acc kv => setCell acc kv.1 kv.2) r) k =
      some v := by
  induction kvs generalizing r with
  | nil => cases hmem
  | cons kv rest ih =>
    simp only [List.map_cons, List.nodup_cons] at hnd
    rcases List.mem_cons.mp hmem with heq | htail
    · subst heq
      rw [List.foldl_cons,
        dlookup_foldl_setCell_of_not_mem rest _ k hnd.1,
        dlookup_setCell_self]
    · rw [List.foldl_cons]
      exact ih (setCell r kv.1 kv.2) htail hnd.2

theorem mem_addCols (cols ks : List String) (k : String) :
    k ∈ addCols cols ks ↔ k ∈ cols ∨ k ∈ ks := by
  induction ks generalizing cols with
  | nil => simp [addCols]
  | cons k0 rest ih =>
    unfold addCols at ih ⊢
    rw [List.foldl_cons]
    by_cases h0 : k0 ∈ cols
    · rw [if_pos h0, ih]
      constructor
      · rintro (hc | hr)
        · exact Or.inl hc
        · exact Or.inr (List.mem_cons_of_mem _ hr)
      · rintro (hc | hr)
        · exact Or.inl hc
        · rcases List.mem_cons.mp hr with rfl | hr2
          · exact Or.inl h0
          · exact Or.inr hr2
    · rw [if_neg h0, ih]
      simp only [List.mem_append, List.mem_singleton, List.mem_cons]
      tauto

theorem dlookup_map_update {α : Type} (d : List (String × α)) (k : String)
    (v : α) (h : dcontains d k = true) :
    dlookup (d.map (fun kv => if kv.1 == k then (k, v) else kv)) k =
      some v := by
  induction d with
  | nil => simp [dcontains] at h
  | cons kv rest ih =>
    rw [List.map_cons]
    by_cases hk : kv.1 = k
    · have hb : (kv.1 == k) = true := by simpa using hk
      rw [hb, if_pos rfl, dlookup_cons_self]
    · have hb : (kv.1 == k) = false := by simpa using hk
      rw [hb]
      simp only [Bool.false_eq_true, if_false]
      rw [dlookup_cons_ne kv _ k hk]
      simp only [dcontains, List.any_cons, hb, Bool.false_or] at h
      exact ih h

theorem dlookup_setKey_self {α : Type} (d : List (String × α)) (k : String)
    (v : α) : dlookup (setKey d k v) k = some v := by
  unfold setKey
  split
  · rename_i h
    exact dlookup_map_update d k v (by simpa using h)
  · rename_i h
    rw [dlookup_append_left_none d _ k
      (dlookup_none_of_not_contains d k (by simpa using h)),
      dlookup_cons_self]

theorem setKey_ne_nil {α : Type} (d : List (String × α)) (k : String)
    (v : α) : setKey d k v ≠ [] := by
  unfold setKey
  split
  · rename_i h
    cases d with
    | nil => simp [dcontains] at h
    | cons kv rest => simp
  · simp

theorem dictMerge_ne_nil {α : Type} (a b : List (String × α))
    (h : b ≠ []) : dictMerge a b ≠ [] := by
  have key : ∀ (b2 : List (String × α)) (a2 : List (String × α)),
      a2 ≠ [] → b2.foldl (fun acc kv => setKey acc kv.1 kv.2) a2 ≠ [] := by
    intro b2
    induction b2 with
    | nil => intro a2 ha; simpa using ha
    | cons kv rest ih =>
      intro a2 _
      rw [List.foldl_cons]
      exact ih (setKey a2 kv.1 kv.2) (setKey_ne_nil a2 kv.1 kv.2)
  cases b with
  | nil => exact absurd rfl h
  | cons kv rest =>
    unfold dictMerge
    rw [List.foldl_cons]
    exact key rest (setKey a kv.1 kv.2) (setKey_ne_nil a kv.1 kv.2)

theorem foldl_pdConcat2_rows (rest : List DataFrame) (d : DataFrame) :
    (rest.foldl pdConcat2 d).rows =
      d.rows ++ (rest.map DataFrame.rows).flatten := by
  induction rest generalizing d with
  | nil => simp
  | cons d2 rest2 ih =>
    rw [List.foldl_cons, ih (pdConcat2 d d2)]
    simp [pdConcat2]

theorem setColumns_rows (df : DataFrame) (kvs : List (String × Scalar)) :
    (setColumns df kvs).rows =
      df.rows.map
        (fun r => kvs.foldl (fun acc kv => setCell acc kv.1 kv.2) r) := by
  unfold setColumns
  induction kvs generalizing df with
  | nil => simp
  | cons kv rest ih =>
    rw [List.foldl_cons, ih (setColumn df kv.1 kv.2)]
    simp [setColumn, Function.comp]

/-! ### Path and inversion lemmas for the normalizer -/

theorem rmd_ok_inv (fj : JsonTop) (meta : List (String × Scalar))
    (h : results_meta_data fj = .ok meta) :
    ∃ opts err, dlookup fj "options" = some (.obj opts) ∧
      dlookup fj "error" = some (.obj err) ∧
      meta = dictMerge (dictMerge opts (scalarItems fj)) err := by
  unfold results_meta_data at h
  split at h <;> try exact Except.noConfusion h
  rename_i opts hopts
  split at h <;> try exact Except.noConfusion h
  rename_i err herr
  exact ⟨opts, err, hopts, herr, (Except.ok.injEq _ _).mp h.symm⟩

theorem jtd_error_path (fj : JsonTop) (err : List (String × Scalar))
    (desc : Scalar) (h1 : dlookup fj "error" = some (.obj err))
    (h2 : dlookup err "error_description" = some desc)
    (h3 : desc ≠ .null) (h4 : dcontains err "fatal" = true) :
    json_to_dataframe fj =
      .ok (pdConcat2 (pdEmpty df_columns) (pdFromRecords [delKey err "fatal"]),
           setKey fj "error" (.obj (delKey err "fatal"))) := by
  unfold json_to_dataframe
  rw [h1]
  simp only
  rw [h2]
  simp only
  rw [if_pos h3, if_pos h4]

theorem jtd_success_path (fj : JsonTop) (err : List (String × Scalar))
    (meta : List (String × Scalar)) (recs : List (List (String × Scalar)))
    (h1 : dlookup fj "error" = some (.obj err))
    (h2 : dlookup err "error_description" = some .null)
    (h3 : results_meta_data fj = .ok meta)
    (h4 : dlookup fj "results" = some (.list recs))
    (h5 : recs ≠ []) :
    json_to_dataframe fj =
      .ok (setColumns (pdConcat2 (pdEmpty df_columns) (pdFromRecords recs)) meta,
           fj) := by
  unfold json_to_dataframe
  rw [h1]
  simp only
  rw [h2]
  simp only
  rw [if_neg (by simp), h3]
  simp only
  rw [h4]
  simp only
  rw [if_pos (by simp [pyTruthy, h5])]

theorem jtd_ok_cases (fj : JsonTop) (df : DataFrame) (fj2 : JsonTop)
    (h : json_to_dataframe fj = .ok (df, fj2)) :
    ∃ err, dlookup fj "error" = some (.obj err) ∧
      ((∃ desc, dlookup err "error_description" = some desc ∧
          desc ≠ .null ∧ dcontains err "fatal" = true ∧
          df = pdConcat2 (pdEmpty df_columns)
                 (pdFromRecords [delKey err "fatal"]) ∧
          fj2 = setKey fj "error" (.obj (delKey err "fatal"))) ∨
       (dlookup err "error_description" = some .null ∧ fj2 = fj ∧
        ∃ meta recs, results_meta_data fj = .ok meta ∧
          dlookup fj "results" = some (.list recs) ∧ recs ≠ [] ∧
          df = setColumns (pdConcat2 (pdEmpty df_columns) (pdFromRecords recs))
                 meta)) := by
  unfold json_to_dataframe at h
  split at h <;> try exact Except.noConfusion h
  rename_i err herr
  refine ⟨err, herr, ?_⟩
  split at h <;> try exact Except.noConfusion h
  rename_i desc hdesc
  split at h
  · rename_i hne
    split at h
    · rename_i hfatal
      left
      obtain ⟨hdf, hfj2⟩ := Prod.mk.injEq .. ▸ (Except.ok.injEq _ _).mp h
      exact ⟨desc, hdesc, hne, hfatal, hdf.symm, hfj2.symm⟩
    · exact Except.noConfusion h
  · rename_i hne
    have hdescnull : desc = .null := by
      by_contra hc
      exact hne hc
    subst hdescnull
    right
    split at h <;> try exact Except.noConfusion h
    rename_i meta hmeta
    split at h <;> try exact Except.noConfusion h
    rename_i rv hrv
    split at h
    · rename_i htruthy
      split at h <;> try exact Except.noConfusion h
      rename_i recs
      obtain ⟨hdf, hfj2⟩ := Prod.mk.injEq .. ▸ (Except.ok.injEq _ _).mp h
      have hrecs : recs ≠ [] := by
        intro hnil
        subst hnil
        simp [pyTruthy] at htruthy
      exact ⟨hdesc, hfj2.symm, meta, recs, hmeta, hrv, hrecs, hdf.symm⟩
    · -- falsy `results`: `pd.DataFrame(meta)` must have raised, because
      -- the merged metadata always contains `error_description`
      exfalso
      obtain ⟨opts, err2, _, herr2, hmetaeq⟩ := rmd_ok_inv fj meta hmeta
      rw [herr] at herr2
      have herreq : err2 = err := by
        have := (Option.some.injEq _ _).mp herr2
        exact (FieldVal.obj.injEq _ _).mp this.symm
      subst herreq
      have herrne : err2 ≠ [] := by
        intro hnil
        subst hnil
        simp [dlookup] at hdesc
      have hmetane : meta ≠ [] := hmetaeq ▸ dictMerge_ne_nil _ _ herrne
      unfold pdFromScalarDict at h
      rw [if_neg (by simpa using hmetane)] at h
      split at h <;> simp_all

theorem jtd_ok_rows_ne_nil (fj : JsonTop) (df : DataFrame) (fj2 : JsonTop)
    (h : json_to_dataframe fj = .ok (df, fj2)) : df.rows ≠ [] := by
  obtain ⟨err, _, hcases⟩ := jtd_ok_cases fj df fj2 h
  rcases hcases with ⟨desc, _, _, _, hdf, _⟩ | ⟨_, _, meta, recs, _, _, hrecs, hdf⟩
  · subst hdf
    simp [pdConcat2, pdEmpty, pdFromRecords]
  · subst hdf
    rw [show (setColumns (pdConcat2 (pdEmpty df_columns) (pdFromRecords recs))
        meta).rows = _ from setColumns_rows _ _]
    simp [pdConcat2, pdEmpty, pdFromRecords, hrecs]

/-! ### Behaviour of one loop iteration -/

theorem jtd_connectionFailure (m a : ℚ) (r c : String) :
    json_to_dataframe (get_formulas .connectionFailure m a r c) =
      .ok (pdConcat2 (pdEmpty df_columns) (pdFromRecords [connErrRow m a r c]),
           [("error", .obj (connErrRow m a r c))]) := rfl

theorem jtd_decodeFailure (m a : ℚ) (r c : String) :
    json_to_dataframe (get_formulas .decodeFailure m a r c) =
      .ok (pdConcat2 (pdEmpty df_columns) (pdFromRecords [decodeErrRow m a r c]),
           [("error", .obj (decodeErrRow m a r c))]) := rfl

/-- After any successful `json_to_dataframe` on a `get_formulas` output,
the loop guard `formulas_json['error'].get('fatal_error', False)` is
`False`: the error payload only ever carries a `fatal` key (already
deleted at this point), never `fatal_error`. -/
theorem fatalFlag_after_jtd (o : HttpOutcome) (m a : ℚ) (r c : String)
    (df : DataFrame) (fj2 : JsonTop)
    (h : json_to_dataframe (get_formulas o m a r c) = .ok (df, fj2)) :
    fatalErrorFlag fj2 = .ok false := by
  cases o with
  | connectionFailure =>
    have hp := (Except.ok.injEq _ _).mp
      ((jtd_connectionFailure m a r c).symm.trans h)
    obtain ⟨-, hfj2⟩ := Prod.mk.injEq .. ▸ hp
    rw [← hfj2]
    rfl
  | decodeFailure =>
    have hp := (Except.ok.injEq _ _).mp
      ((jtd_decodeFailure m a r c).symm.trans h)
    obtain ⟨-, hfj2⟩ := Prod.mk.injEq .. ▸ hp
    rw [← hfj2]
    rfl
  | success body =>
    obtain ⟨err, herr, hcases⟩ := jtd_ok_cases _ df fj2 h
    have hE : dlookup (get_formulas (.success body) m a r c) "error" =
        some (.obj [("error_description", Scalar.null)]) := by
      unfold get_formulas
      exact dlookup_setKey_self body "error" _
    have herrEq : err = [("error_description", Scalar.null)] := by
      have h0 := hE.symm.trans herr
      have h1 := (Option.some.injEq _ _).mp h0
      exact ((FieldVal.obj.injEq _ _).mp h1).symm
    rcases hcases with ⟨desc, hdesc, hne, -, -, -⟩ | ⟨-, hfj2, -⟩
    · rw [herrEq] at hdesc
      rw [dlookup_cons_self] at hdesc
      exact absurd ((Option.some.injEq _ _).mp hdesc).symm hne
    · rw [hfj2]
      unfold get_formulas fatalErrorFlag
      rw [dlookup_setKey_self body "error" _]
      rfl

/-! ### The batch loop invariant -/

/-- Whenever `formulasLoop` returns a table normally, the four input
sequences had equal lengths, one HTTP request was issued per query, every
query contributed a nonempty block of rows, and the `search_number`
cells of the accumulated new frames form consecutive blocks starting at
the initial enumeration index. In particular the `fatal`-halt branch is
dead: the loop never stops early. -/
theorem formulasLoop_ok_spec (transport : ℕ → HttpOutcome) :
    ∀ (ms as2 : List ℚ) (rs cs : List String) (idx : ℕ)
      (acc frames : List DataFrame) (n : ℕ),
      formulasLoop transport ms as2 rs cs idx acc = (.ok frames, n) →
      as2.length = ms.length ∧ rs.length = ms.length ∧
        cs.length = ms.length ∧ n = idx + ms.length ∧
        ∃ dfs, frames = acc ++ dfs ∧ dfs.length = ms.length ∧
          (∀ d ∈ dfs, d.rows ≠ []) ∧
          ((dfs.map DataFrame.rows).flatten).map
              (fun r => dlookup r "search_number") =
            snPattern idx (dfs.map (fun d => d.rows.length)) := by
  intro ms
  induction ms with
  | nil =>
    intro as2 rs cs idx acc frames n h
    cases as2 with
    | cons a as3 => cases rs <;> cases cs <;> (unfold formulasLoop at h; simp at h)
    | nil =>
      cases rs with
      | cons r rs2 => cases cs <;> (unfold formulasLoop at h; simp at h)
      | nil =>
        cases cs with
        | cons c cs2 => unfold formulasLoop at h; simp at h
        | nil =>
          unfold formulasLoop at h
          obtain ⟨h1, h2⟩ := Prod.mk.injEq .. ▸ h
          refine ⟨rfl, rfl, rfl,
            by simp only [List.length_nil, Nat.add_zero]; exact h2.symm,
            [], ?_, rfl, by simp, by simp [snPattern]⟩
          simp [← (Except.ok.injEq _ _).mp h1]
  | cons m ms2 ih =>
    intro as2 rs cs idx acc frames n h
    cases as2 with
    | nil => cases rs <;> cases cs <;> (unfold formulasLoop at h; simp at h)
    | cons a as3 =>
      cases rs with
      | nil => cases cs <;> (unfold formulasLoop at h; simp at h)
      | cons r rs2 =>
        cases cs with
        | nil => unfold formulasLoop at h; simp at h
        | cons c cs2 =>
          unfold formulasLoop at h
          split at h
          · exact absurd (Prod.mk.injEq .. ▸ h).1 (by simp)
          next df fj2 hjtd =>
            split at h
            · exact absurd (Prod.mk.injEq .. ▸ h).1 (by simp)
            next b hflag =>
              have hb : b = false := by
                have h0 := (fatalFlag_after_jtd (transport idx) m a r c df fj2
                  hjtd).symm.trans hflag
                exact ((Except.ok.injEq _ _).mp h0).symm
              subst hb
              simp only [Bool.false_eq_true, if_false] at h
              obtain ⟨hl1, hl2, hl3, hn, dfs2, hframes, hlen, hne, hsn⟩ :=
                ih as3 rs2 cs2 (idx + 1) _ frames n h
              have hrowsne : df.rows ≠ [] :=
                jtd_ok_rows_ne_nil _ df fj2 hjtd
              refine ⟨by simpa using hl1, by simpa using hl2,
                by simpa using hl3, by simp only [List.length_cons]; omega,
                setColumn df "search_number" (.num idx) :: dfs2, ?_, ?_, ?_, ?_⟩
              · rw [hframes, List.append_assoc]
                rfl
              · simpa using hlen
              · intro d hd
                rcases List.mem_cons.mp hd with rfl | hd2
                · simpa [setColumn] using hrowsne
                · exact hne d hd2
              · have hblock :
                    (setColumn df "search_number" (.num idx)).rows.map
                        (fun r => dlookup r "search_number") =
                      List.replicate df.rows.length (some (.num idx)) := by
                  have hmem : ∀ b2 ∈ (setColumn df "search_number"
                      (.num idx)).rows.map (fun r => dlookup r "search_number"),
                      b2 = some (Scalar.num idx) := by
                    intro b2 hb2
                    obtain ⟨r2, hr2, rfl⟩ := List.mem_map.mp hb2
                    obtain ⟨r0, -, rfl⟩ := List.mem_map.mp hr2
                    exact dlookup_setCell_self r0 "search_number" (.num idx)
                  have hrepl := List.eq_replicate_length.mpr hmem
                  rw [hrepl]
                  simp [setColumn]
                simp only [List.map_cons, List.flatten_cons, List.map_append,
                  hblock, hsn, snPattern]
                rw [show (setColumn df "search_number" (.num idx)).rows.length
                  = df.rows.length by simp [setColumn]]

theorem dcontains_delKey_self {α : Type} (d : List (String × α))
    (k : String) : dcontains (delKey d k) k = false := by
  induction d with
  | nil => rfl
  | cons kv rest ih =>
    by_cases hk : kv.1 = k
    · have hp : (decide ¬ kv.1 = k) = false := by simp [hk]
      rw [delKey, List.filter_cons, hp]
      simpa [delKey] using ih
    · have hp : (decide ¬ kv.1 = k) = true := by simp [hk]
      rw [delKey, List.filter_cons, hp]
      simp only [if_true]
      have hb : (kv.1 == k) = false := by simpa using hk
      rw [dcontains, List.any_cons, hb]
      simp [dcontains, delKey] at ih
      simp [ih]

theorem fatalErrorFlag_connRow (m a : ℚ) (r c : String) :
    fatalErrorFlag [("error", .obj (connErrRow m a r c))] = .ok false := rfl

/-- When the accuracy sequence is strictly shorter than the mass sequence
(and the other two sequences do not run out first), the lazy
`strict=True` check only fires once the accuracies are exhausted: the
loop issues one HTTP request per accuracy and then propagates the
`ValueError`. Connection-failure outcomes are assumed for the issued
requests so that the per-query normalization succeeds. -/
theorem formulasLoop_short_as (transport : ℕ → HttpOutcome) :
    ∀ (as2 ms : List ℚ) (rs cs : List String) (idx : ℕ)
      (acc : List DataFrame),
      as2.length < ms.length → as2.length ≤ rs.length →
      as2.length ≤ cs.length →
      (∀ i, idx ≤ i → i < idx + as2.length →
        transport i = .connectionFailure) →
      formulasLoop transport ms as2 rs cs idx acc =
        (.error (.valueError "zip() arguments are of unequal length"),
         idx + as2.length) := by
  intro as2
  induction as2 with
  | nil =>
    intro ms rs cs idx acc hlen _ _ _
    cases ms with
    | nil => simp at hlen
    | cons m ms2 =>
      cases rs <;> cases cs <;> (unfold formulasLoop; simp)
  | cons a as3 ih =>
    intro ms rs cs idx acc hlen hrs hcs htr
    cases ms with
    | nil => simp at hlen
    | cons m ms2 =>
      cases rs with
      | nil => simp at hrs
      | cons r rs2 =>
        cases cs with
        | nil => simp at hcs
        | cons c cs2 =>
          unfold formulasLoop
          rw [htr idx (le_refl idx) (by simp)]
          split
          · next e heq =>
            rw [jtd_connectionFailure] at heq
            exact absurd heq (by simp)
          · next df fj2 heq =>
            rw [jtd_connectionFailure] at heq
            obtain ⟨hdf, hfj2⟩ := Prod.mk.injEq .. ▸
              (Except.ok.injEq _ _).mp heq
            split
            · next e heq2 =>
              rw [← hfj2, fatalErrorFlag_connRow] at heq2
              exact Except.noConfusion heq2
            · next b heq2 =>
              rw [← hfj2, fatalErrorFlag_connRow] at heq2
              have hb : b = false := ((Except.ok.injEq _ _).mp heq2).symm
              subst hb
              simp only [Bool.false_eq_true, if_false]
              have hstep := ih ms2 rs2 cs2 (idx + 1)
                (acc ++ [setColumn df "search_number" (.num idx)])
                (by simpa using hlen) (by simpa using hrs)
                (by simpa using hcs)
                (fun i h1 h2 => htr i (by omega) (by simp; omega))
              rw [hstep]
              have : idx + 1 + as3.length = idx + (a :: as3).length := by
                simp
                omega
              rw [this]

/-! ### The claims -/

/-- C1: the claim states that the batch loop stops immediately after the
first fatal-error query and issues no HTTP request for later queries.
The code's guard reads the key `fatal_error`, which no payload ever
carries (the payload key is `fatal`, and `json_to_dataframe` has already
deleted even that), so the loop never halts early: with every request
failing fatally (`ConnectionError`), all three queries of a three-query
batch are still issued and the returned table has rows for search
numbers 0, 1 and 2 — the claim would demand one request and rows for
query 0 only. -/
theorem C1_fatal_error_does_not_halt_batch :
    (formulas (fun _ => .connectionFailure) [10, 20, 30] [1, 1, 1]
        ["C0-9", "C0-9", "C0-9"] ["+", "+", "+"]).2 = 3 ∧
    (formulas (fun _ => .connectionFailure) [10, 20, 30] [1, 1, 1]
        ["C0-9", "C0-9", "C0-9"] ["+", "+", "+"]).1.toOption.map snColumn =
      some [some (.num 0), some (.num 1), some (.num 2)] := by
  decide

/-- C2 counterexample: with 3 masses and 2 accuracies the call does
raise, but only after two HTTP requests were already issued — not zero
as the claim states. -/
theorem C2_counterexample_requests_before_error :
    (formulas (fun _ => .connectionFailure) [1, 2, 3] [1, 2]
        ["C", "C", "C"] ["+", "+", "+"]).2 = 2 ∧
    (formulas (fun _ => .connectionFailure) [1, 2, 3] [1, 2]
        ["C", "C", "C"] ["+", "+", "+"]).2 ≠ 0 ∧
    (formulas (fun _ => .connectionFailure) [1, 2, 3] [1, 2]
        ["C", "C", "C"] ["+", "+", "+"]).1 =
      .error (.valueError "zip() arguments are of unequal length") := by
  decide

/-- C2 (amended): a mismatched-length batch never returns a table — the
`ValueError` from `zip(..., strict=True)` (or an earlier per-query
failure) propagates — but the validation is lazy, not performed before
any network call: HTTP requests are issued until the shortest sequence
is exhausted. With fewer accuracies than masses and request outcomes
whose normalization succeeds, exactly `as2.length` (not zero) HTTP
requests are issued before the error is raised. -/
theorem C2_amended_lazy_mismatch_validation (transport : ℕ → HttpOutcome)
    (ms as2 : List ℚ) (rs cs : List String) :
    (¬(as2.length = ms.length ∧ rs.length = ms.length ∧
        cs.length = ms.length) →
      ∀ table n, formulas transport ms as2 rs cs ≠ (.ok table, n)) ∧
    (as2.length < ms.length → as2.length ≤ rs.length →
      as2.length ≤ cs.length →
      (∀ i, i < as2.length → transport i = .connectionFailure) →
      formulas transport ms as2 rs cs =
        (.error (.valueError "zip() arguments are of unequal length"),
         as2.length)) := by
  constructor
  · intro hne table n hcontra
    unfold formulas at hcontra
    split at hcontra
    · exact absurd (Prod.mk.injEq .. ▸ hcontra).1 (by simp)
    next frames n0 hloop =>
      obtain ⟨h1, h2, h3, -, -⟩ :=
        formulasLoop_ok_spec transport ms as2 rs cs 0 [] frames n0 hloop
      exact hne ⟨h1, h2, h3⟩
  · intro h1 h2 h3 htr
    unfold formulas
    rw [formulasLoop_short_as transport as2 ms rs cs 0 []
      h1 h2 h3 (fun i hi1 hi2 => htr i (by omega))]
    simp

theorem C2_amended_witness :
    formulas (fun _ => .connectionFailure) [1, 2, 3] [1, 2]
        ["C", "C", "C"] ["+", "+", "+"] =
      (.error (.valueError "zip() arguments are of unequal length"), 2) :=
  (C2_amended_lazy_mismatch_validation (fun _ => .connectionFailure)
      [1, 2, 3] [1, 2] ["C", "C", "C"] ["+", "+", "+"]).2
    (by decide) (by decide) (by decide) (fun i _ => rfl)

/-- C3: the claim states that a response with a null error description
and an empty results list yields one metadata-only row without raising.
In the code the merged metadata dict holds only scalar values, so
`pd.DataFrame(meta_data)` raises
`ValueError: If using all scalar values, you must pass an index` —
`json_to_dataframe` raises instead of returning a one-row table. -/
theorem C3_empty_results_raises_value_error :
    json_to_dataframe
        (get_formulas
          (.success [("options", .obj []), ("results", .list [])])
          57 1 "C0-9" "+") =
      .error (.valueError
        "If using all scalar values, you must pass an index") := by
  decide

/-- C4: the claim states that the retry-configured adapter is the one
handling requests to the endpoint URL. The constructor mounts that
adapter at the `"http://"` prefix only, while the endpoint is
`https://www.chemcalc.org/chemcalc/em`: `get_adapter` resolves the
endpoint to the session's default adapter, whose retry total is 0, not
to the 4-retry adapter. -/
theorem C4_retry_adapter_not_mounted_for_https :
    get_adapter chemcalcSession chemcalcURL = some defaultAdapter ∧
    get_adapter chemcalcSession chemcalcURL ≠ some retryAdapter ∧
    defaultAdapter.max_retries.total = 0 ∧
    retryAdapter.max_retries =
      { total := 4, backoff_factor := 1,
        status_forcelist := [429, 500, 502, 503, 504],
        allowedMethodsNone := true } := by
  decide

/-- C5: a raw response whose error payload carries a non-null error
description (and, as every such `get_formulas` payload does, the
`fatal` flag) normalizes to a table with exactly one row — the error
row — and neither the table's columns nor the emitted row carry a
`fatal` column. -/
theorem C5_error_description_single_row_no_fatal (fj : JsonTop)
    (err : List (String × Scalar)) (desc : Scalar)
    (h1 : dlookup fj "error" = some (.obj err))
    (h2 : dlookup err "error_description" = some desc)
    (h3 : desc ≠ .null) (h4 : dcontains err "fatal" = true) :
    ∃ df fj2, json_to_dataframe fj = .ok (df, fj2) ∧
      df.rows.length = 1 ∧ "fatal" ∉ df.columns ∧
      ∀ row ∈ df.rows, dcontains row "fatal" = false := by
  refine ⟨_, _, jtd_error_path fj err desc h1 h2 h3 h4, ?_, ?_, ?_⟩
  · simp [pdConcat2, pdEmpty, pdFromRecords]
  · intro hmem
    rw [show (pdConcat2 (pdEmpty df_columns)
        (pdFromRecords [delKey err "fatal"])).columns =
        addCols df_columns (addCols [] ((delKey err "fatal").map Prod.fst))
        from rfl] at hmem
    rcases (mem_addCols _ _ _).mp hmem with hc | hc
    · revert hc
      decide
    · rcases (mem_addCols _ _ _).mp hc with hc2 | hc2
      · exact absurd hc2 (List.not_mem_nil _)
      · obtain ⟨kv, hkv, hfst⟩ := List.mem_map.mp hc2
        have h7 := (List.mem_filter.mp hkv).2
        simp [hfst] at h7
  · intro row hrow
    have hr : row = delKey err "fatal" := by
      simpa [pdConcat2, pdEmpty, pdFromRecords] using hrow
    rw [hr]
    exact dcontains_delKey_self err "fatal"

theorem C5_witness :
    ∃ (df : DataFrame) (fj2 : JsonTop),
      json_to_dataframe (get_formulas .connectionFailure 5 1 "C" "+") =
        .ok (df, fj2) ∧
      df.rows.length = 1 ∧ "fatal" ∉ df.columns ∧
      ∀ row ∈ df.rows, dcontains row "fatal" = false :=
  C5_error_description_single_row_no_fatal
    (get_formulas .connectionFailure 5 1 "C" "+")
    [("fatal", .bool true), ("error_description", .str "ConnectionError"),
     ("em", .num 5), ("accuracy", .num 1), ("mfRange", .str "C(+)"),
     ("charge", .str "+")]
    (.str "ConnectionError") (by decide) (by decide) (by decide) (by decide)

/-- C6: exact round-trip of the two utility functions over the
idealised (exact rational) arithmetic of the model: for every nonzero
mass, `ppm_to_mass(mass, ppm_error(mass, x)) = x`. -/
theorem C6_ppm_round_trip (mass x : ℚ) (h : mass ≠ 0) :
    ppm_to_mass mass (ppm_error mass x) = x := by
  unfold ppm_to_mass ppm_error
  field_simp

theorem C6_witness : (2 : ℚ) ≠ 0 ∧ ppm_to_mass 2 (ppm_error 2 6) = 6 :=
  ⟨by norm_num, C6_ppm_round_trip 2 6 (by norm_num)⟩

/-- C7: whenever `formulas` returns a combined table, its
`search_number` column consists of consecutive nonempty blocks, the
block of the query at 0-based position `i` carrying exactly the value
`i`: for an N-query batch exactly the values 0..N-1 appear, in
ascending order of first appearance. -/
theorem C7_search_number_blocks (transport : ℕ → HttpOutcome)
    (ms as2 : List ℚ) (rs cs : List String) (table : DataFrame) (n : ℕ)
    (h : formulas transport ms as2 rs cs = (.ok table, n)) :
    ∃ counts : List ℕ, counts.length = ms.length ∧
      (∀ c2 ∈ counts, 0 < c2) ∧ snColumn table = snPattern 0 counts := by
  unfold formulas at h
  split at h
  · exact absurd (Prod.mk.injEq .. ▸ h).1 (by simp)
  next frames n0 hloop =>
    obtain ⟨-, -, -, -, dfs, hframes, hlen, hne, hsn⟩ :=
      formulasLoop_ok_spec transport ms as2 rs cs 0 [] frames n0 hloop
    rw [List.nil_append] at hframes
    subst hframes
    obtain ⟨hpd, -⟩ := Prod.mk.injEq .. ▸ h
    cases frames with
    | nil => exact absurd hpd (by simp [pdConcat])
    | cons d rest =>
      have htable : table = rest.foldl pdConcat2 d := by
        have h9 : rest.foldl pdConcat2 d = table := by
          simpa [pdConcat] using hpd
        exact h9.symm
      refine ⟨(d :: rest).map (fun d2 => d2.rows.length),
        by simpa using hlen, ?_, ?_⟩
      · intro c2 hc2
        obtain ⟨d2, hd2, rfl⟩ := List.mem_map.mp hc2
        exact List.length_pos.mpr (hne d2 hd2)
      · rw [htable]
        unfold snColumn
        rw [foldl_pdConcat2_rows,
          show d.rows ++ (rest.map DataFrame.rows).flatten =
            ((d :: rest).map DataFrame.rows).flatten by simp]
        exact hsn

theorem C7_witness :
    ∃ counts : List ℕ, counts.length = 2 ∧ (∀ c2 ∈ counts, 0 < c2) ∧
      snColumn (DataFrame.mk df_columns
        [[("error_description", .str "ConnectionError"), ("em", .num 5),
          ("accuracy", .num 1), ("mfRange", .str "C(+)"),
          ("charge", .str "+"), ("search_number", .num 0)],
         [("error_description", .str "ConnectionError"), ("em", .num 6),
          ("accuracy", .num 1), ("mfRange", .str "C(+)"),
          ("charge", .str "+"), ("search_number", .num 1)]]) =
        snPattern 0 counts :=
  C7_search_number_blocks (fun _ => .connectionFailure) [5, 6] [1, 1]
    ["C", "C"] ["+", "+"] _ 2 (by decide)

/-- C8: a response with a null error description and a nonempty results
list yields one row per candidate record, and — the keys of a Python
dict being unique — every emitted row carries every merged metadata
entry with the same broadcast value. -/
theorem C8_candidates_carry_broadcast_metadata (fj : JsonTop)
    (err meta : List (String × Scalar))
    (recs : List (List (String × Scalar)))
    (h1 : dlookup fj "error" = some (.obj err))
    (h2 : dlookup err "error_description" = some .null)
    (h3 : results_meta_data fj = .ok meta)
    (h4 : dlookup fj "results" = some (.list recs)) (h5 : recs ≠ [])
    (h6 : (meta.map Prod.fst).Nodup) :
    ∃ df, json_to_dataframe fj = .ok (df, fj) ∧
      df.rows.length = recs.length ∧
      ∀ row ∈ df.rows, ∀ kv ∈ meta, dlookup row kv.1 = some kv.2 := by
  refine ⟨_, jtd_success_path fj err meta recs h1 h2 h3 h4 h5, ?_, ?_⟩
  · rw [setColumns_rows]
    simp [pdConcat2, pdEmpty, pdFromRecords]
  · intro row hrow kv hkv
    rw [setColumns_rows] at hrow
    obtain ⟨r0, -, rfl⟩ := List.mem_map.mp hrow
    exact dlookup_foldl_setCell_of_mem meta r0 kv.1 kv.2 hkv h6

theorem C8_witness :
    ∃ df : DataFrame,
      json_to_dataframe
        (get_formulas
          (.success
            [("em", .scalar (.num 57)),
             ("options", .obj [("massRange", .num 1)]),
             ("results", .list [[("mf", .str "C4H9"), ("em", .num 57)],
                                [("mf", .str "C3H7N"), ("em", .num 57)]])])
          57 1 "C0-9" "+") =
        .ok (df,
          get_formulas
            (.success
              [("em", .scalar (.num 57)),
               ("options", .obj [("massRange", .num 1)]),
               ("results", .list [[("mf", .str "C4H9"), ("em", .num 57)],
                                  [("mf", .str "C3H7N"), ("em", .num 57)]])])
            57 1 "C0-9" "+") ∧
      df.rows.length =
        [[("mf", Scalar.str "C4H9"), ("em", Scalar.num 57)],
         [("mf", Scalar.str "C3H7N"), ("em", Scalar.num 57)]].length ∧
      ∀ row ∈ df.rows,
        ∀ kv ∈ [("massRange", Scalar.num 1), ("em", Scalar.num 57),
                ("error_description", Scalar.null)],
          dlookup row kv.1 = some kv.2 :=
  C8_candidates_carry_broadcast_metadata _
    [("error_description", .null)]
    [("massRange", .num 1), ("em", .num 57), ("error_description", .null)]
    [[("mf", .str "C4H9"), ("em", .num 57)],
     [("mf", .str "C3H7N"), ("em", .num 57)]]
    (by decide) (by decide) (by decide) (by decide) (by decide) (by decide)

/-- C9: `json_to_dataframe` mutates its argument on the error path: in
the post-call response, `error` maps to the payload with the `fatal`
key deleted, so a caller inspecting the response afterwards can no
longer observe the fatality flag. -/
theorem C9_fatal_key_deleted_from_caller_response (fj : JsonTop)
    (err : List (String × Scalar)) (desc : Scalar)
    (h1 : dlookup fj "error" = some (.obj err))
    (h2 : dlookup err "error_description" = some desc)
    (h3 : desc ≠ .null) (h4 : dcontains err "fatal" = true) :
    ∃ df, json_to_dataframe fj =
        .ok (df, setKey fj "error" (.obj (delKey err "fatal"))) ∧
      dlookup (setKey fj "error" (.obj (delKey err "fatal"))) "error" =
        some (.obj (delKey err "fatal")) ∧
      dcontains (delKey err "fatal") "fatal" = false :=
  ⟨_, jtd_error_path fj err desc h1 h2 h3 h4,
   dlookup_setKey_self fj "error" _, dcontains_delKey_self err "fatal"⟩

theorem C9_witness :
    ∃ df : DataFrame,
      json_to_dataframe (get_formulas .decodeFailure 7 2 "CH" "-") =
        .ok (df,
          setKey (get_formulas .decodeFailure 7 2 "CH" "-") "error"
            (.obj (delKey
              [("fatal", .bool false),
               ("error_description", .str "JSONDecodeError"),
               ("em", .num 7), ("accuracy", .num 2),
               ("mfRange", .str "CH(-)"), ("charge", .str "-")]
              "fatal"))) ∧
      dlookup
        (setKey (get_formulas .decodeFailure 7 2 "CH" "-") "error"
          (.obj (delKey
            [("fatal", .bool false),
             ("error_description", .str "JSONDecodeError"),
             ("em", .num 7), ("accuracy", .num 2),
             ("mfRange", .str "CH(-)"), ("charge", .str "-")]
            "fatal"))) "error" =
        some (.obj (delKey
          [("fatal", .bool false),
           ("error_description", .str "JSONDecodeError"),
           ("em", .num 7), ("accuracy", .num 2),
           ("mfRange", .str "CH(-)"), ("charge", .str "-")]
          "fatal")) ∧
      dcontains (delKey
        ([("fatal", .bool false),
          ("error_description", .str "JSONDecodeError"),
          ("em", .num 7), ("accuracy", .num 2),
          ("mfRange", .str "CH(-)"), ("charge", .str "-")] :
          List (String × Scalar))
        "fatal") "fatal" = false :=
  C9_fatal_key_deleted_from_caller_response
    (get_formulas .decodeFailure 7 2 "CH" "-")
    [("fatal", .bool false), ("error_description", .str "JSONDecodeError"),
     ("em", .num 7), ("accuracy", .num 2), ("mfRange", .str "CH(-)"),
     ("charge", .str "-")]
    (.str "JSONDecodeError") (by decide) (by decide) (by decide) (by decide)

/-- C10: a zero-query batch reaches `pd.concat([])` with an empty list
of per-query frames, which raises
`ValueError: No objects to concatenate`: `formulas` never returns a
table for an empty batch, and no HTTP request is issued. -/
theorem C10_empty_batch_concat_raises (transport : ℕ → HttpOutcome) :
    formulas transport [] [] [] [] =
      (.error (.valueError "No objects to concatenate"), 0) := rfl

end MassFormula
